import Mathlib

/-!
Verification of `generate_icons.py`, the single module of the Solo-Runner
repository: a utility that loads an image, normalizes it to a square RGBA
bitmap, and writes five resized PNG launcher icons into density-named
directories.

The script is embedded shallowly:

* `PILImage` models an in-memory decoded bitmap by its observable
  attributes (width, height, color mode), with the pure semantics of the
  PIL primitives `crop`, `convert` and `resize` given by `pilCrop`,
  `pilConvert` and `pilResize`.
* Side effects (console prints, `os.makedirs`, `Image.save`, and the
  image operations applied) are recorded as an `Event` trace.
* The outside world is an `Env`: the result of `Image.open` per path, and
  an oracle per fallible library call that may inject an exception
  (`PyExc`), mirroring that any PIL / filesystem call may raise.
* `generateIcons` embeds the function `generate_icons` (lines 23-80),
  `mainRun` embeds `main` (lines 82-112), and `runScript` embeds running
  the module as a script, including the top-level `from PIL import Image`
  at line 9 which, when PIL is unavailable, raises an unhandled
  `ImportError` before `main` is defined (no stdout output, process exit
  code 1; the traceback goes to stderr and is not modelled as a `print`
  event).
-/

set_option maxHeartbeats 1000000

/-- In-memory decoded bitmap: the observable attributes of a PIL `Image`
(width and height from `img.size`, color mode from `img.mode`). -/
structure PILImage where
  width : Nat
  height : Nat
  mode : String
deriving DecidableEq, Repr

/-- A crop rectangle `(left, top, right, bottom)` as passed to
`Image.crop`; the region is the half-open box `[left, right) x [top, bottom)`. -/
structure CropBox where
  left : Nat
  top : Nat
  right : Nat
  bottom : Nat
deriving DecidableEq, Repr

/-- Semantics of `Image.crop`: the result has the box's dimensions and
keeps the color mode. -/
def pilCrop (img : PILImage) (box : CropBox) : PILImage :=
  { width := box.right - box.left, height := box.bottom - box.top, mode := img.mode }

/-- Semantics of `Image.convert`: same dimensions, new color mode. -/
def pilConvert (img : PILImage) (newMode : String) : PILImage :=
  { width := img.width, height := img.height, mode := newMode }

/-- Semantics of `Image.resize((w, h), ...)`: the requested dimensions,
same color mode. -/
def pilResize (img : PILImage) (w h : Nat) : PILImage :=
  { width := w, height := h, mode := img.mode }

/-- PIL color modes that carry an alpha plane (alpha-capable modes). -/
def alphaCapable (mode : String) : Bool :=
  mode = "RGBA" || mode = "LA" || mode = "PA" || mode = "RGBa" || mode = "La"

/-- Exceptions the embedded library calls may raise: `FileNotFoundError`,
or any other exception carrying its message text (`str(e)`). -/
inductive PyExc where
  | fileNotFound
  | other (msg : String)
deriving DecidableEq, Repr

/-- Observable side effects of a run, in order: console prints (stdout),
directory creation, and the image operations crop / convert / resize /
save applied to the working image. -/
inductive Event where
  | print (s : String)
  | mkdirs (dir : String)
  | cropEv (box : CropBox)
  | convertEv (fromMode toMode : String)
  | resizeEv (src : PILImage) (w h : Nat)
  | saveEv (path : String) (img : PILImage) (format : String)
deriving DecidableEq, Repr

/-- The outside world for one invocation: what `Image.open` returns for
each path, and, for each fallible library call, whether it raises (and
with what message). `none` means the call succeeds with the pure PIL
semantics above; resize/save oracles are indexed by the density folder
of the loop iteration. -/
structure Env where
  openResult : String → Except PyExc PILImage
  cropExc : Option String
  convertExc : Option String
  resizeExc : String → Option String
  saveExc : String → Option String

/-- An environment in which `Image.open` yields `img` at every path and
no library call raises. -/
def cleanEnv (img : PILImage) : Env :=
  { openResult := fun _ => Except.ok img,
    cropExc := none,
    convertExc := none,
    resizeExc := fun _ => none,
    saveExc := fun _ => none }

/-- ICON_SIZES, lines 12-18: ordered table from density folder to pixel
edge length (Python 3.7+ dicts preserve insertion order). -/
def ICON_SIZES : List (String × Nat) :=
  [("mipmap-mdpi", 48),
   ("mipmap-hdpi", 72),
   ("mipmap-xhdpi", 96),
   ("mipmap-xxhdpi", 144),
   ("mipmap-xxxhdpi", 192)]

/-- BASE_DIR, line 21: the hardcoded relative output base directory. -/
def BASE_DIR : String := "project_guideline/android/java/com/google/research/guideline/res"

/-- Model of `os.path.join` for the relative components used here. -/
def joinPath (a b : String) : String := a ++ "/" ++ b

/-- A single-quote character, for reproducing the message of line 75. -/
def sQuote : String := String.singleton (Char.ofNat 39)

/-- A line of 60 equal signs (`"=" * 60`, line 83). -/
def eqLine : String := String.mk (List.replicate 60 (Char.ofNat 61))

/-- Centered square crop arithmetic of lines 43-47:
`size = min(width, height)`, `left = (width - size) // 2`,
`top = (height - size) // 2`, `right = left + size`, `bottom = top + size`.
Python `//` on non-negative ints is `Nat` division. -/
def cropBoxOf (width height : Nat) : CropBox :=
  let size := min width height
  let left := (width - size) / 2
  let top := (height - size) / 2
  ⟨left, top, left + size, top + size⟩

/-- Loop of lines 56-69: for each `(folder, size)` in `ICON_SIZES`, make
the output directory, resize the working image `img`, and save the PNG.
Returns events so far and the exception that aborted the loop, if any. -/
def iconLoop (env : Env) (img : PILImage) : List (String × Nat) → List Event × Option PyExc
  | [] => ([], none)
  | (folder, size) :: rest =>
    let outputDir := joinPath BASE_DIR folder
    match env.resizeExc folder with
    | some m => ([Event.mkdirs outputDir], some (PyExc.other m))
    | none =>
      let resizedImg := pilResize img size size
      match env.saveExc folder with
      | some m => ([Event.mkdirs outputDir, Event.resizeEv img size size], some (PyExc.other m))
      | none =>
        let outputPath := joinPath outputDir "ic_launcher.png"
        let doneMsg := "[OK] 已生成 " ++ folder ++ "/ic_launcher.png (" ++
          toString size ++ "x" ++ toString size ++ ")"
        let (evs, exc) := iconLoop env img rest
        ([Event.mkdirs outputDir, Event.resizeEv img size size,
          Event.saveEv outputPath resizedImg "PNG", Event.print doneMsg] ++ evs, exc)

/-- Lines 56-72: run the icon loop and, on success, the two final
success prints. -/
def loopAndFinish (env : Env) (img : PILImage) : List Event × Option PyExc :=
  match iconLoop env img ICON_SIZES with
  | (evs, some e) => (evs, some e)
  | (evs, none) =>
      (evs ++ [Event.print "\n[OK] 所有图标生成完成！",
               Event.print ("\n图标已保存到: " ++ BASE_DIR)], none)

/-- Lines 51-53: convert the working image to RGBA when its mode is not
already `"RGBA"`, then run the loop. -/
def afterSquare (env : Env) (img : PILImage) : List Event × Option PyExc :=
  if img.mode ≠ "RGBA" then
    match env.convertExc with
    | some m => ([], some (PyExc.other m))
    | none =>
      let img2 := pilConvert img "RGBA"
      match loopAndFinish env img2 with
      | (evs, exc) => (Event.convertEv img.mode "RGBA" :: evs, exc)
  else loopAndFinish env img

/-- Body of the `try` block, lines 32-72: open the image, crop it to a
centered square when non-square (lines 37-49), then convert and loop.
Returns the events performed and the exception that escaped, if any. -/
def tryBody (env : Env) (inputImagePath : String) : List Event × Option PyExc :=
  match env.openResult inputImagePath with
  | Except.error e => ([], some e)
  | Except.ok img =>
    let width := img.width
    let height := img.height
    if width ≠ height then
      let warnEvs := [Event.print ("警告: 图片不是正方形 (" ++ toString width ++ "x" ++
                        toString height ++ ")"),
                      Event.print "将裁剪为正方形..."]
      let box := cropBoxOf width height
      match env.cropExc with
      | some m => (warnEvs, some (PyExc.other m))
      | none =>
        let size := min width height
        let img1 := pilCrop img box
        match afterSquare env img1 with
        | (evs, exc) =>
          (warnEvs ++ [Event.cropEv box,
                       Event.print ("已裁剪为 " ++ toString size ++ "x" ++ toString size)] ++ evs,
           exc)
    else
      afterSquare env img

/-- Function `generate_icons`, lines 23-80: the initial print, the `try`
body, and the two `except` handlers (`FileNotFoundError` prints lines
75-76 and exits 1; any other exception prints line 79 with the error
text and exits 1). The second component is `some code` when `sys.exit`
was called. -/
def generateIcons (env : Env) (inputImagePath : String) : List Event × Option Nat :=
  let headEv := Event.print ("正在读取图片: " ++ inputImagePath)
  match tryBody env inputImagePath with
  | (evs, none) => (headEv :: evs, none)
  | (evs, some PyExc.fileNotFound) =>
      (headEv :: evs ++ [Event.print ("错误: 找不到图片文件 " ++ sQuote ++ inputImagePath ++ sQuote),
                         Event.print "请确保图片文件存在"], some 1)
  | (evs, some (PyExc.other m)) =>
      (headEv :: evs ++ [Event.print ("错误: " ++ m)], some 1)

/-- Function `main`, lines 82-112: banner, argument handling with the
default-input notice (lines 89-96), the in-function PIL availability
check (lines 98-104), then `generate_icons` and the final prints.
The result's second component is the process exit code: the argument of
an uncaught `sys.exit`, or 0 on normal return. -/
def mainRun (pilAvailable : Bool) (argv : List String) (env : Env) : List Event × Nat :=
  let banner : List Event :=
    [Event.print eqLine, Event.print "流光引跑 - 应用图标生成工具", Event.print eqLine,
     Event.print ""]
  let argPick : String × List Event :=
    match argv with
    | _ :: a :: _ => (a, [])
    | _ => ("icon.png",
        [Event.print "使用默认图片: icon.png",
         Event.print "提示: 你也可以指定图片路径: python generate_icons.py <图片路径>",
         Event.print ""])
  let inputImage := argPick.1
  let noticeEvs := argPick.2
  if pilAvailable then
    match generateIcons env inputImage with
    | (evs, some c) => (banner ++ noticeEvs ++ evs, c)
    | (evs, none) =>
        (banner ++ noticeEvs ++ evs ++
          [Event.print "\n下一步:", Event.print "1. 重新编译应用",
           Event.print "2. 安装到设备", Event.print "3. 查看新图标"], 0)
  else
    (banner ++ noticeEvs ++
      [Event.print "错误: 需要安装Pillow库", Event.print "请运行: pip install Pillow"], 1)

/-- Running the module as a script: the top-level
`from PIL import Image` at line 9 runs before anything else; when PIL is
unavailable it raises an unhandled `ImportError`, so the process prints
nothing to stdout (the interpreter writes a traceback to stderr) and
exits with code 1, and `main` is never reached. -/
def runScript (pilAvailable : Bool) (argv : List String) (env : Env) : List Event × Nat :=
  if pilAvailable then mainRun pilAvailable argv env
  else ([], 1)

/-- The working image used by the resize loop: the input after the
conditional centered crop (lines 37-49) and the conditional RGBA
conversion (lines 51-53). -/
def workingImage (img : PILImage) : PILImage :=
  let img1 := if img.width ≠ img.height then pilCrop img (cropBoxOf img.width img.height) else img
  if img1.mode ≠ "RGBA" then pilConvert img1 "RGBA" else img1

/-- Save events of a trace: `(path, image, format)` triples. -/
def savesOf : List Event → List (String × PILImage × String)
  | [] => []
  | Event.saveEv p i f :: rest => (p, i, f) :: savesOf rest
  | _ :: rest => savesOf rest

/-- Paths of the save events of a trace. -/
def savePathsOf : List Event → List String
  | [] => []
  | Event.saveEv p _ _ :: rest => p :: savePathsOf rest
  | _ :: rest => savePathsOf rest

/-- Directories created (`os.makedirs` calls) in a trace. -/
def mkdirsOf : List Event → List String
  | [] => []
  | Event.mkdirs d :: rest => d :: mkdirsOf rest
  | _ :: rest => mkdirsOf rest

/-- Crop boxes applied in a trace. -/
def cropsOf : List Event → List CropBox
  | [] => []
  | Event.cropEv b :: rest => b :: cropsOf rest
  | _ :: rest => cropsOf rest

/-- Mode conversions applied in a trace, as `(from, to)` pairs. -/
def convertsOf : List Event → List (String × String)
  | [] => []
  | Event.convertEv a b :: rest => (a, b) :: convertsOf rest
  | _ :: rest => convertsOf rest

/-- Source images of the resize operations in a trace. -/
def resizeSrcsOf : List Event → List PILImage
  | [] => []
  | Event.resizeEv src _ _ :: rest => src :: resizeSrcsOf rest
  | _ :: rest => resizeSrcsOf rest

/-- Console lines printed in a trace. -/
def printsOf : List Event → List String
  | [] => []
  | Event.print s :: rest => s :: printsOf rest
  | _ :: rest => printsOf rest

lemma resizeSrcsOf_append (a b : List Event) :
    resizeSrcsOf (a ++ b) = resizeSrcsOf a ++ resizeSrcsOf b := by
  induction a with
  | nil => simp [resizeSrcsOf]
  | cons e rest ih => cases e <;> simp [resizeSrcsOf, ih]

/-- C1: for every input image, a run in which no library call fails
writes exactly five files, one per `ICON_SIZES` entry in table order,
each saved in PNG format at `BASE_DIR/<folder>/ic_launcher.png` with
dimensions `size x size`, and every saved image is in the alpha-capable
mode RGBA. -/
theorem five_png_outputs (img : PILImage) (p : String) :
    savesOf (generateIcons (cleanEnv img) p).1 =
      [(joinPath (joinPath BASE_DIR "mipmap-mdpi") "ic_launcher.png",
        PILImage.mk 48 48 "RGBA", "PNG"),
       (joinPath (joinPath BASE_DIR "mipmap-hdpi") "ic_launcher.png",
        PILImage.mk 72 72 "RGBA", "PNG"),
       (joinPath (joinPath BASE_DIR "mipmap-xhdpi") "ic_launcher.png",
        PILImage.mk 96 96 "RGBA", "PNG"),
       (joinPath (joinPath BASE_DIR "mipmap-xxhdpi") "ic_launcher.png",
        PILImage.mk 144 144 "RGBA", "PNG"),
       (joinPath (joinPath BASE_DIR "mipmap-xxxhdpi") "ic_launcher.png",
        PILImage.mk 192 192 "RGBA", "PNG")] ∧
    ((savesOf (generateIcons (cleanEnv img) p).1).all
      fun s => alphaCapable s.2.1.mode) = true := by
  have h1 : savesOf (generateIcons (cleanEnv img) p).1 =
      [(joinPath (joinPath BASE_DIR "mipmap-mdpi") "ic_launcher.png",
        PILImage.mk 48 48 "RGBA", "PNG"),
       (joinPath (joinPath BASE_DIR "mipmap-hdpi") "ic_launcher.png",
        PILImage.mk 72 72 "RGBA", "PNG"),
       (joinPath (joinPath BASE_DIR "mipmap-xhdpi") "ic_launcher.png",
        PILImage.mk 96 96 "RGBA", "PNG"),
       (joinPath (joinPath BASE_DIR "mipmap-xxhdpi") "ic_launcher.png",
        PILImage.mk 144 144 "RGBA", "PNG"),
       (joinPath (joinPath BASE_DIR "mipmap-xxxhdpi") "ic_launcher.png",
        PILImage.mk 192 192 "RGBA", "PNG")] := by
    obtain ⟨w, h, m⟩ := img
    by_cases hwh : w = h <;> by_cases hm : m = "RGBA" <;>
      simp [generateIcons, tryBody, afterSquare, loopAndFinish, iconLoop, ICON_SIZES, cleanEnv,
        pilCrop, pilConvert, pilResize, cropBoxOf, savesOf, hwh, hm]
  refine ⟨h1, ?_⟩
  rw [h1]
  decide

/-- C2: for every non-square input of width `w` and height `h`, the run
performs exactly one crop, whose box is
`((w-m)/2, (h-m)/2, (w-m)/2+m, (h-m)/2+m)` with `m = min w h` under
floor division, and the resulting working image is an `m x m` square. -/
theorem crop_region_centered (w h : Nat) (mode p : String) (hwh : w ≠ h) :
    cropsOf (generateIcons (cleanEnv ⟨w, h, mode⟩) p).1 =
      [⟨(w - min w h) / 2, (h - min w h) / 2,
        (w - min w h) / 2 + min w h, (h - min w h) / 2 + min w h⟩] ∧
    (workingImage ⟨w, h, mode⟩).width = min w h ∧
    (workingImage ⟨w, h, mode⟩).height = min w h := by
  refine ⟨?_, ?_, ?_⟩
  · by_cases hm : mode = "RGBA" <;>
      simp [generateIcons, tryBody, afterSquare, loopAndFinish, iconLoop, ICON_SIZES, cleanEnv,
        pilCrop, pilConvert, pilResize, cropBoxOf, cropsOf, hwh, hm]
  · by_cases hm : mode = "RGBA" <;>
      simp [workingImage, pilCrop, pilConvert, cropBoxOf, hwh, hm]
  · by_cases hm : mode = "RGBA" <;>
      simp [workingImage, pilCrop, pilConvert, cropBoxOf, hwh, hm]

/-- Witness for C2 at the spec scenario: a 1000x800 input yields crop
box (100, 0, 900, 800) and an 800x800 working square. -/
theorem crop_region_centered_witness :
    (1000 : Nat) ≠ 800 ∧
    (cropsOf (generateIcons (cleanEnv ⟨1000, 800, "RGB"⟩) "logo.png").1 =
      [⟨100, 0, 900, 800⟩] ∧
     (workingImage ⟨1000, 800, "RGB"⟩).width = 800 ∧
     (workingImage ⟨1000, 800, "RGB"⟩).height = 800) :=
  ⟨by decide, crop_region_centered 1000 800 "RGB" "logo.png" (by decide)⟩

lemma resizeSrc_iconLoop (env : Env) (img : PILImage) (l : List (String × Nat)) :
    ∀ src ∈ resizeSrcsOf (iconLoop env img l).1, src = img := by
  induction l with
  | nil => simp [iconLoop, resizeSrcsOf]
  | cons fs rest ih =>
    obtain ⟨folder, size⟩ := fs
    intro src hsrc
    rcases hr : env.resizeExc folder with _ | m
    · rcases hs : env.saveExc folder with _ | m2
      · rcases hrec : iconLoop env img rest with ⟨evs, exc⟩
        simp [iconLoop, hr, hs, hrec, resizeSrcsOf] at hsrc
        rcases hsrc with hsrc | hsrc
        · exact hsrc
        · exact ih src (by rw [hrec]; exact hsrc)
      · simp [iconLoop, hr, hs, resizeSrcsOf] at hsrc
        exact hsrc
    · simp [iconLoop, hr, resizeSrcsOf] at hsrc

lemma resizeSrc_loopAndFinish (env : Env) (img : PILImage) :
    ∀ src ∈ resizeSrcsOf (loopAndFinish env img).1, src = img := by
  intro src hsrc
  rcases h1 : iconLoop env img ICON_SIZES with ⟨evs, exc⟩
  cases exc <;>
    simp [loopAndFinish, h1, resizeSrcsOf_append, resizeSrcsOf] at hsrc <;>
    exact resizeSrc_iconLoop env img ICON_SIZES src (by rw [h1]; exact hsrc)

lemma resizeSrc_afterSquare (env : Env) (img : PILImage) :
    ∀ src ∈ resizeSrcsOf (afterSquare env img).1,
      src.width = img.width ∧ src.height = img.height ∧ src.mode = "RGBA" := by
  intro src hsrc
  by_cases hm : img.mode = "RGBA"
  · simp [afterSquare, hm] at hsrc
    have h := resizeSrc_loopAndFinish env img src hsrc
    subst h
    exact ⟨rfl, rfl, hm⟩
  · rcases hc : env.convertExc with _ | m
    · rcases hl : loopAndFinish env (pilConvert img "RGBA") with ⟨evs, exc⟩
      simp [afterSquare, hm, hc, hl, resizeSrcsOf] at hsrc
      have h := resizeSrc_loopAndFinish env (pilConvert img "RGBA") src (by rw [hl]; exact hsrc)
      subst h
      exact ⟨rfl, rfl, rfl⟩
    · simp [afterSquare, hm, hc, resizeSrcsOf] at hsrc

lemma resizeSrc_tryBody (env : Env) (p : String) :
    ∀ src ∈ resizeSrcsOf (tryBody env p).1,
      src.width = src.height ∧ src.mode = "RGBA" := by
  intro src hsrc
  rcases ho : env.openResult p with e | img
  · simp [tryBody, ho, resizeSrcsOf] at hsrc
  · by_cases hwh : img.width = img.height
    · simp [tryBody, ho, hwh] at hsrc
      have h := resizeSrc_afterSquare env img src hsrc
      exact ⟨by rw [h.1, h.2.1]; exact hwh, h.2.2⟩
    · rcases hc : env.cropExc with _ | m
      · rcases ha : afterSquare env (pilCrop img (cropBoxOf img.width img.height)) with ⟨evs, exc⟩
        simp [tryBody, ho, hwh, hc, ha, resizeSrcsOf, resizeSrcsOf_append] at hsrc
        have h := resizeSrc_afterSquare env (pilCrop img (cropBoxOf img.width img.height)) src
          (by rw [ha]; exact hsrc)
        refine ⟨?_, h.2.2⟩
        have hw := h.1
        have hh := h.2.1
        simp [pilCrop, cropBoxOf] at hw hh
        omega
      · simp [tryBody, ho, hwh, hc, resizeSrcsOf] at hsrc

lemma resizeSrc_generateIcons (env : Env) (p : String) :
    ∀ src ∈ resizeSrcsOf (generateIcons env p).1,
      src.width = src.height ∧ src.mode = "RGBA" := by
  intro src hsrc
  rcases ht : tryBody env p with ⟨evs, exc⟩
  have hin : src ∈ resizeSrcsOf evs := by
    rcases exc with _ | e
    · simp [generateIcons, ht, resizeSrcsOf] at hsrc
      exact hsrc
    · cases e <;>
        simp [generateIcons, ht, resizeSrcsOf, resizeSrcsOf_append] at hsrc <;>
        exact hsrc
  exact resizeSrc_tryBody env p src (by rw [ht]; exact hin)

/-- C3: in every environment (any input image, and any pattern of
injected library failures), every resize operation performed by
`generate_icons` reads a source image that is square and in an
alpha-capable color mode (concretely RGBA). -/
theorem resize_source_square_alpha (env : Env) (p : String) (src : PILImage)
    (hsrc : src ∈ resizeSrcsOf (generateIcons env p).1) :
    src.width = src.height ∧ alphaCapable src.mode = true := by
  have h := resizeSrc_generateIcons env p src hsrc
  exact ⟨h.1, by rw [h.2]; decide⟩

/-- Witness for C3: in the clean run on a 1000x800 RGB input, the
800x800 RGBA working image actually occurs as a resize source, and it is
square and alpha-capable. -/
theorem resize_source_square_alpha_witness :
    (PILImage.mk 800 800 "RGBA") ∈
        resizeSrcsOf (generateIcons (cleanEnv ⟨1000, 800, "RGB"⟩) "logo.png").1 ∧
    ((PILImage.mk 800 800 "RGBA").width = (PILImage.mk 800 800 "RGBA").height ∧
     alphaCapable (PILImage.mk 800 800 "RGBA").mode = true) :=
  ⟨by decide, resize_source_square_alpha (cleanEnv ⟨1000, 800, "RGB"⟩) "logo.png" _ (by decide)⟩

/-- C9: in a clean run on any input image, the five resize operations
all read the same working image, namely the post-crop post-convert
source `workingImage img`, never a previously resized copy. -/
theorem resizes_from_single_working_image (img : PILImage) (p : String) :
    resizeSrcsOf (generateIcons (cleanEnv img) p).1 =
      List.replicate 5 (workingImage img) := by
  obtain ⟨w, h, m⟩ := img
  by_cases hwh : w = h <;> by_cases hm : m = "RGBA" <;>
    simp [generateIcons, tryBody, afterSquare, loopAndFinish, iconLoop, ICON_SIZES, cleanEnv,
      workingImage, pilCrop, pilConvert, pilResize, cropBoxOf, resizeSrcsOf, List.replicate,
      hwh, hm]

lemma savesOf_append (a b : List Event) :
    savesOf (a ++ b) = savesOf a ++ savesOf b := by
  induction a with
  | nil => simp [savesOf]
  | cons e rest ih => cases e <;> simp [savesOf, ih]

/-- An environment in which the input file is missing at every path and
no other library call is reached. -/
def fnfEnv : Env :=
  { openResult := fun _ => Except.error PyExc.fileNotFound,
    cropExc := none,
    convertExc := none,
    resizeExc := fun _ => none,
    saveExc := fun _ => none }

/-- An environment with a square RGBA input whose third save
(`mipmap-xhdpi`) raises a generic exception, e.g. a full disk. -/
def diskFullEnv : Env :=
  { openResult := fun _ => Except.ok ⟨512, 512, "RGBA"⟩,
    cropExc := none,
    convertExc := none,
    resizeExc := fun _ => none,
    saveExc := fun folder => if folder = "mipmap-xhdpi" then some "disk full" else none }

/-- The events `diskFullEnv` produces before the failing third save: two
complete iterations and the third iteration up to its resize. -/
def diskFullEvents : List Event :=
  [Event.mkdirs (joinPath BASE_DIR "mipmap-mdpi"),
   Event.resizeEv ⟨512, 512, "RGBA"⟩ 48 48,
   Event.saveEv (joinPath (joinPath BASE_DIR "mipmap-mdpi") "ic_launcher.png")
     ⟨48, 48, "RGBA"⟩ "PNG",
   Event.print "[OK] 已生成 mipmap-mdpi/ic_launcher.png (48x48)",
   Event.mkdirs (joinPath BASE_DIR "mipmap-hdpi"),
   Event.resizeEv ⟨512, 512, "RGBA"⟩ 72 72,
   Event.saveEv (joinPath (joinPath BASE_DIR "mipmap-hdpi") "ic_launcher.png")
     ⟨72, 72, "RGBA"⟩ "PNG",
   Event.print "[OK] 已生成 mipmap-hdpi/ic_launcher.png (72x72)",
   Event.mkdirs (joinPath BASE_DIR "mipmap-xhdpi"),
   Event.resizeEv ⟨512, 512, "RGBA"⟩ 96 96]

/-- C4: when the input file does not exist, `generate_icons` prints the
not-found message naming the file and exits with code 1, having saved no
file and created no directory. -/
theorem file_not_found_clean_exit (env : Env) (p : String)
    (ho : env.openResult p = Except.error PyExc.fileNotFound) :
    generateIcons env p =
      ([Event.print ("正在读取图片: " ++ p),
        Event.print ("错误: 找不到图片文件 " ++ sQuote ++ p ++ sQuote),
        Event.print "请确保图片文件存在"], some 1) ∧
    savesOf (generateIcons env p).1 = [] ∧
    mkdirsOf (generateIcons env p).1 = [] := by
  have h1 : generateIcons env p =
      ([Event.print ("正在读取图片: " ++ p),
        Event.print ("错误: 找不到图片文件 " ++ sQuote ++ p ++ sQuote),
        Event.print "请确保图片文件存在"], some 1) := by
    simp [generateIcons, tryBody, ho]
  refine ⟨h1, ?_, ?_⟩ <;> rw [h1] <;> simp [savesOf, mkdirsOf]

/-- Witness for C4 in the concrete missing-file environment. -/
theorem file_not_found_clean_exit_witness :
    generateIcons fnfEnv "icon.png" =
      ([Event.print ("正在读取图片: " ++ "icon.png"),
        Event.print ("错误: 找不到图片文件 " ++ sQuote ++ "icon.png" ++ sQuote),
        Event.print "请确保图片文件存在"], some 1) ∧
    savesOf (generateIcons fnfEnv "icon.png").1 = [] ∧
    mkdirsOf (generateIcons fnfEnv "icon.png").1 = [] :=
  file_not_found_clean_exit fnfEnv "icon.png" rfl

/-- C5 as stated is false: a 512x512 input in mode LA is square and
alpha-capable, yet the clean run performs a mode conversion (LA to
RGBA), because the code at line 52 skips conversion only for the exact
mode RGBA. -/
theorem alpha_mode_no_convert_counterexample :
    ((PILImage.mk 512 512 "LA").width = (PILImage.mk 512 512 "LA").height ∧
     alphaCapable (PILImage.mk 512 512 "LA").mode = true) ∧
    convertsOf (generateIcons (cleanEnv ⟨512, 512, "LA"⟩) "icon.png").1 =
      [("LA", "RGBA")] := by
  decide

/-- C5 amended: for a square input whose mode is exactly RGBA, the clean
run performs no crop and no conversion, and the loaded image itself is
the source of all five resizes. -/
theorem square_rgba_no_crop_no_convert (img : PILImage) (p : String)
    (hwh : img.width = img.height) (hm : img.mode = "RGBA") :
    cropsOf (generateIcons (cleanEnv img) p).1 = [] ∧
    convertsOf (generateIcons (cleanEnv img) p).1 = [] ∧
    resizeSrcsOf (generateIcons (cleanEnv img) p).1 = List.replicate 5 img := by
  refine ⟨?_, ?_, ?_⟩ <;>
    simp [generateIcons, tryBody, afterSquare, loopAndFinish, iconLoop, ICON_SIZES, cleanEnv,
      pilResize, cropsOf, convertsOf, resizeSrcsOf, List.replicate, hwh, hm]

/-- Witness for C5 amended at a 512x512 RGBA input. -/
theorem square_rgba_no_crop_no_convert_witness :
    cropsOf (generateIcons (cleanEnv ⟨512, 512, "RGBA"⟩) "icon.png").1 = [] ∧
    convertsOf (generateIcons (cleanEnv ⟨512, 512, "RGBA"⟩) "icon.png").1 = [] ∧
    resizeSrcsOf (generateIcons (cleanEnv ⟨512, 512, "RGBA"⟩) "icon.png").1 =
      List.replicate 5 ⟨512, 512, "RGBA"⟩ :=
  square_rgba_no_crop_no_convert ⟨512, 512, "RGBA"⟩ "icon.png" rfl rfl

/-- C6 (divergence): when PIL is unavailable the process does exit with
code 1 before any processing, but prints nothing to stdout: the
top-level import at line 9 raises an unhandled ImportError before
`main` is defined, so the install hint of lines 102-103 never runs. -/
theorem pil_missing_aborts_without_hint (argv : List String) (env : Env) :
    runScript false argv env = ([], 1) := by
  simp [runScript]

/-- C7: when the try body aborts with any exception other than
file-not-found carrying message `m`, `generate_icons` appends exactly
one print containing the error text `m` and exits with code 1, and every
event performed before the failure — in particular every file already
saved — is retained unchanged (no rollback). -/
theorem generic_exception_exit (env : Env) (p : String) (evs : List Event) (m : String)
    (ht : tryBody env p = (evs, some (PyExc.other m))) :
    generateIcons env p =
      (Event.print ("正在读取图片: " ++ p) :: evs ++ [Event.print ("错误: " ++ m)], some 1) ∧
    savesOf (generateIcons env p).1 = savesOf evs := by
  have h1 : generateIcons env p =
      (Event.print ("正在读取图片: " ++ p) :: evs ++ [Event.print ("错误: " ++ m)], some 1) := by
    simp [generateIcons, ht]
  refine ⟨h1, ?_⟩
  rw [h1]
  simp [savesOf, savesOf_append]

/-- Witness for C7: the third save fails with "disk full"; the first two
saved files remain in the trace and the run exits 1 after printing the
error text. -/
theorem generic_exception_exit_witness :
    generateIcons diskFullEnv "icon.png" =
      (Event.print ("正在读取图片: " ++ "icon.png") :: diskFullEvents ++
        [Event.print ("错误: " ++ "disk full")], some 1) ∧
    savesOf (generateIcons diskFullEnv "icon.png").1 = savesOf diskFullEvents :=
  generic_exception_exit diskFullEnv "icon.png" diskFullEvents "disk full" (by decide)

/-- C8: invoked with no command-line argument, `main` defaults the input
to icon.png and prints a notice saying so; when icon.png does not exist
the run then prints the not-found message naming icon.png and the
process exits with code 1. -/
theorem default_icon_png_missing (prog : String) (env : Env)
    (ho : env.openResult "icon.png" = Except.error PyExc.fileNotFound) :
    runScript true [prog] env =
      ([Event.print eqLine, Event.print "流光引跑 - 应用图标生成工具", Event.print eqLine,
        Event.print "",
        Event.print "使用默认图片: icon.png",
        Event.print "提示: 你也可以指定图片路径: python generate_icons.py <图片路径>",
        Event.print "",
        Event.print ("正在读取图片: " ++ "icon.png"),
        Event.print ("错误: 找不到图片文件 " ++ sQuote ++ "icon.png" ++ sQuote),
        Event.print "请确保图片文件存在"], 1) := by
  simp [runScript, mainRun, generateIcons, tryBody, ho]

/-- Witness for C8 in the concrete missing-file environment. -/
theorem default_icon_png_missing_witness :
    runScript true ["generate_icons.py"] fnfEnv =
      ([Event.print eqLine, Event.print "流光引跑 - 应用图标生成工具", Event.print eqLine,
        Event.print "",
        Event.print "使用默认图片: icon.png",
        Event.print "提示: 你也可以指定图片路径: python generate_icons.py <图片路径>",
        Event.print "",
        Event.print ("正在读取图片: " ++ "icon.png"),
        Event.print ("错误: 找不到图片文件 " ++ sQuote ++ "icon.png" ++ sQuote),
        Event.print "请确保图片文件存在"], 1) :=
  default_icon_png_missing "generate_icons.py" fnfEnv rfl

/-- C10: in every clean run, the five output paths are the hardcoded
relative base directory joined with each density folder and the fixed
file name, independently of the input path and image; `BASE_DIR` is a
relative path (its first character is not the separator, char 47), so the output location is resolved against the current
working directory and nothing in the interface configures it. -/
theorem output_paths_hardcoded_base (img : PILImage) (p : String) :
    savePathsOf (generateIcons (cleanEnv img) p).1 =
      ICON_SIZES.map (fun fs => joinPath (joinPath BASE_DIR fs.1) "ic_launcher.png") ∧
    BASE_DIR = "project_guideline/android/java/com/google/research/guideline/res" ∧
    BASE_DIR.data.head? ≠ some (Char.ofNat 47) := by
  refine ⟨?_, rfl, by decide⟩
  obtain ⟨w, h, m⟩ := img
  by_cases hwh : w = h <;> by_cases hm : m = "RGBA" <;>
    simp [generateIcons, tryBody, afterSquare, loopAndFinish, iconLoop, ICON_SIZES, cleanEnv,
      pilResize, pilCrop, pilConvert, cropBoxOf, savePathsOf, hwh, hm]
